import Mathlib

set_option linter.unusedVariables false

/-!
Verification of the DC forward-simulation example script
`examples/06-dc/plot_pseudo_section.py`.

The script's own logic (input validation, model assignment, the linear
system corner fix, the Jacobi preconditioner, the per-transmitter solve
loop and its data storage, and the return-value structure) is embedded
shallowly over the rationals.  Operations supplied by the external
numerical libraries (mesh discretization operators, `closestPoints`,
interpolation matrices, the iterative solver, the generated survey
geometry) appear as abstract parameters gathered in an environment
structure, since the spec places their internals out of scope.
-/

/-- A point in 3-D space, as a triple of rational coordinates. -/
def Point : Type := ℚ × ℚ × ℚ

/-- Componentwise addition of two points (numpy vector addition). -/
def pAdd (p q : Point) : Point := (p.1 + q.1, p.2.1 + q.2.1, p.2.2 + q.2.2)

/-- Scaling of a point by a scalar (numpy scalar-vector product). -/
def pScale (s : ℚ) (p : Point) : Point := (s * p.1, s * p.2.1, s * p.2.2)

/-- Dot product of two vectors represented as lists (numpy `dot`). -/
def dotL (r v : List ℚ) : ℚ := (List.zipWith (· * ·) r v).sum

/-- Sparse-matrix-times-vector, with the matrix stored as a list of rows. -/
def matVec (M : List (List ℚ)) (v : List ℚ) : List ℚ := M.map (fun r => dotL r v)

/-- Numpy broadcast division of two 1-D arrays: a singleton numerator is
broadcast against the denominator array, otherwise division is elementwise. -/
def npDiv (a b : List ℚ) : List ℚ :=
  if a.length = 1 then b.map (fun y => a.headI / y)
  else List.zipWith (· / ·) a b

/-- The IEEE-754 double value of `np.pi`, as an exact rational. -/
def npPi : ℚ := 884279719003555 / 281474976710656

/-- The list the source's `survey_type` assertion checks membership in,
verbatim from the script (note the duplicated entry). -/
def surveyTypeList : List String :=
  ["pole-dipole", "dipole-dipole", "pole-dipole", "pole-pole"]

/-- The list the source's `unitType` assertion checks membership in. -/
def unitTypeList : List String := ["appResistivity", "appConductivity", "volt"]

/-- The message of the `survey_type` assertion, with the trailing
`.format(survey_type)` applied. -/
def surveyTypeErrMsg (survey_type : String) : String :=
  "survey_type must be dipole-dipole | pole-dipole | dipole-pole | pole-pole not "
    ++ survey_type

/-- The message of the `unitType` assertion. -/
def unitTypeErrMsg : String :=
  "Unit type (unitType) must be appResistivity or appConductivity or volt (potential)"

/-- The two assertions at the top of `run`, in source order: the
`survey_type` check fires first, then the `unitType` check. -/
def validateRun (survey_type unitType : String) : Except String Unit :=
  if survey_type ∈ surveyTypeList then
    if unitType ∈ unitTypeList then Except.ok ()
    else Except.error unitTypeErrMsg
  else Except.error (surveyTypeErrMsg survey_type)

/-- One source of the generated survey: the transmitter electrode pair and
the receiver M- and N-electrode location lists of its one receiver. -/
structure SrcData where
  txLoc : Point × Point
  locM : List Point
  locN : List Point

/-- A default source, used only as a `getD` fallback. -/
def srcDefault : SrcData := ⟨((0, 0, 0), (0, 0, 0)), [], []⟩

/-- The external-library capabilities the script consumes, abstracted:
`closestPoints` and the interpolation matrices from the mesh, cell volumes,
the preconditioned iterative solve, cell centers, the generated survey, and
the line geometry `dl_x, dl_y, dl_len` derived from it. -/
structure Env where
  closestPoints : List Point → List ℕ
  vol : ℕ → ℚ
  interpMatT : List Point → List (List ℚ)
  interpMat : List Point → List (List ℚ)
  solver : List ℚ → List ℚ
  gridCC : List Point
  survey : List SrcData
  dl_x : ℚ
  dl_y : ℚ
  dl_len : ℚ

/-- The right-hand-side source term of the solve loop, by survey type:
for `pole-dipole` the transmitter pole plus an "infinity" pole at
`tx + [dl_x, dl_y, 0] * dl_len * 2`, with charges `[-1]` broadcast-divided
by the volumes of the closest cells; otherwise the two transmitter
electrode locations with charges `[-1, 1]` divided by the closest cell
volumes. -/
def computeRHS (env : Env) (survey_type : String) (txLoc : Point × Point) :
    List ℚ :=
  if survey_type = "pole-dipole" then
    let tx := txLoc.1
    let tinf := pAdd tx (pScale (env.dl_len * 2) (env.dl_x, env.dl_y, 0))
    let inds := env.closestPoints [tx, tinf]
    matVec (env.interpMatT [tx, tinf]) (npDiv [-1] (inds.map env.vol))
  else
    let inds := env.closestPoints [txLoc.1, txLoc.2]
    matVec (env.interpMatT [txLoc.1, txLoc.2])
      (npDiv [-1, 1] (inds.map env.vol))

/-- The body of the transmitter loop: build the RHS, solve for the
potential, interpolate it to the M and N electrodes, and store the
difference scaled by `np.pi`. -/
def txDatum (env : Env) (survey_type : String) (src : SrcData) : List ℚ :=
  let RHS := computeRHS env survey_type src.txLoc
  let phi := env.solver RHS
  let p1 := matVec (env.interpMat src.locM) phi
  let p2 := matVec (env.interpMat src.locN) phi
  List.zipWith (fun a b => (a - b) * npPi) p1 p2

/-- The full transmitter loop: one datum list per source, in order. -/
def forwardData (env : Env) (survey_type : String) (sv : List SrcData) :
    List (List ℚ) :=
  sv.map (txDatum env survey_type)

/-- Whether a cell center lies inside a sphere.  Modelled from the spec:
the spec's "assign conductivity values inside two spherical regions"
stands for `getIndicesSphere`, whose code is not under `src/`; a point is
inside when its squared distance to the center is at most the squared
radius. -/
def insideSphere (c : Point) (r : ℚ) (p : Point) : Bool :=
  decide ((p.1 - c.1) ^ 2 + (p.2.1 - c.2.1) ^ 2 + (p.2.2 - c.2.2) ^ 2 ≤ r ^ 2)

/-- One masked assignment `model[ind] = v`: cells inside the sphere take
the new value, all others keep their previous value. -/
def setSphere (c : Point) (r : ℚ) (v : ℚ) (cells : List Point)
    (vals : List ℚ) : List ℚ :=
  List.zipWith (fun cell old => if insideSphere c r cell then v else old)
    cells vals

/-- The conductivity model of the script: background `sig 0` everywhere,
then the first sphere overwritten with `sig 1`, then the second sphere
overwritten with `sig 2`, in that order. -/
def buildModel (sig0 sig1 sig2 : ℚ) (c1 c2 : Point) (r1 r2 : ℚ)
    (cells : List Point) : List ℚ :=
  let model0 := cells.map (fun _ => sig0)
  let model1 := setSphere c1 r1 sig1 cells model0
  setSphere c2 r2 sig2 cells model1

/-- The figure handle returned by the plotting branch, recording the
`figsize` passed to `plt.figure`. -/
structure Figure where
  figsize : ℚ × ℚ
deriving DecidableEq

/-- The axis handle returned by the plotting branch, recording the
arguments passed to `plt.subplot`. -/
structure Axis where
  subplotArgs : ℕ × ℕ × ℕ
deriving DecidableEq

/-- The `run` function of the script: validate the two option strings,
then build the model, run the forward loop and stack the data, and either
return nothing (`plotIt=False`) or the figure and axis handles.  The
default arguments mirror the source's defaults. -/
def run (env : Env) (survey_type : String := "dipole-dipole")
    (unitType : String := "appConductivity") (plotIt : Bool := true) :
    Except String (Option (Figure × Axis)) :=
  match validateRun survey_type unitType with
  | Except.error e => Except.error e
  | Except.ok _ =>
    let sig : ℚ × ℚ × ℚ := (1/100, 1/10, 1/1000)
    let loc1 : Point := (-50, 0, -50)
    let loc2 : Point := (50, 0, -50)
    let model := buildModel sig.1 sig.2.1 sig.2.2 loc1 loc2 25 25 env.gridCC
    let data := forwardData env survey_type env.survey
    let dobs := data.flatten
    if !plotIt then Except.ok none
    else Except.ok (some (⟨(7, 7)⟩, ⟨(2, 1, 1)⟩))

/-- Claim C1: for any `survey_type` outside the accepted set or any
`unitType` outside the accepted set, `run` fails with an assertion error,
for every environment — so before any mesh, assembly, or solve work. -/
theorem run_invalid_options_fail (env : Env) (survey_type unitType : String)
    (plotIt : Bool)
    (h : survey_type ∉ ["pole-dipole", "dipole-dipole", "pole-pole"] ∨
         unitType ∉ ["appResistivity", "appConductivity", "volt"]) :
    ∃ msg, run env survey_type unitType plotIt = Except.error msg := by
  rcases h with h | h
  · refine ⟨surveyTypeErrMsg survey_type, ?_⟩
    have hs : survey_type ∉ surveyTypeList := by
      intro hm
      apply h
      simp only [surveyTypeList, List.mem_cons, List.not_mem_nil, or_false] at hm
      simp only [List.mem_cons, List.not_mem_nil, or_false]
      tauto
    simp [run, validateRun, hs]
  · by_cases hs : survey_type ∈ surveyTypeList
    · refine ⟨unitTypeErrMsg, ?_⟩
      have hu : unitType ∉ unitTypeList := by
        simpa [unitTypeList] using h
      simp [run, validateRun, hs, hu]
    · exact ⟨surveyTypeErrMsg survey_type, by simp [run, validateRun, hs]⟩

/-- Witness for C1 at concrete invalid inputs and a concrete environment. -/
theorem run_invalid_options_fail_witness :
    ("gradient" ∉ ["pole-dipole", "dipole-dipole", "pole-pole"] ∨
      "volt" ∉ ["appResistivity", "appConductivity", "volt"]) ∧
    ∃ msg, run ⟨fun _ => [], fun _ => 1, fun _ => [], fun _ => [], id, [],
        [], 1, 0, 350⟩ "gradient" "volt" true = Except.error msg :=
  ⟨Or.inl (by decide),
    run_invalid_options_fail _ "gradient" "volt" true (Or.inl (by decide))⟩

/-- Claim C2: the survey types passing the check are exactly
`pole-dipole`, `dipole-dipole` and `pole-pole`; `dipole-pole` makes `run`
fail with the assertion message, even though that message mentions
`dipole-pole` (it occurs twice: once in the listing, once as the
formatted offending value). -/
theorem surveyType_accepted_exactly :
    (∀ s, s ∈ surveyTypeList ↔
      (s = "pole-dipole" ∨ s = "dipole-dipole" ∨ s = "pole-pole")) ∧
    (∀ (env : Env) (unitType : String) (plotIt : Bool),
      run env "dipole-pole" unitType plotIt =
        Except.error (surveyTypeErrMsg "dipole-pole")) ∧
    List.IsInfix "dipole-pole".toList
      (surveyTypeErrMsg "dipole-pole").toList := by
  refine ⟨?_, ?_, ?_⟩
  · intro s
    simp only [surveyTypeList, List.mem_cons, List.not_mem_nil, or_false]
    tauto
  · intro env unitType plotIt
    have hs : ("dipole-pole" : String) ∉ surveyTypeList := by decide
    simp [run, validateRun, hs]
  · decide

/-- Claim C3: every combination of the three valid survey types and three
valid unit types passes both assertions. -/
theorem valid_options_pass :
    validateRun "dipole-dipole" "appResistivity" = Except.ok () ∧
    validateRun "dipole-dipole" "appConductivity" = Except.ok () ∧
    validateRun "dipole-dipole" "volt" = Except.ok () ∧
    validateRun "pole-dipole" "appResistivity" = Except.ok () ∧
    validateRun "pole-dipole" "appConductivity" = Except.ok () ∧
    validateRun "pole-dipole" "volt" = Except.ok () ∧
    validateRun "pole-pole" "appResistivity" = Except.ok () ∧
    validateRun "pole-pole" "appConductivity" = Except.ok () ∧
    validateRun "pole-pole" "volt" = Except.ok () :=
  ⟨rfl, rfl, rfl, rfl, rfl, rfl, rfl, rfl, rfl⟩

/-- Claim C4: with `plotIt=False`, `run` returns no displayable object
after computing the data; with `plotIt=True` and the default option
strings, it returns a figure and axis handle pair. -/
theorem run_return_shape (env : Env) :
    run env "dipole-dipole" "appConductivity" false = Except.ok none ∧
    run env "dipole-dipole" "appConductivity" true =
      Except.ok (some (⟨(7, 7)⟩, ⟨(2, 1, 1)⟩)) := by
  constructor <;> rfl

/-- Helper: `getD` commutes with `map` at an in-range index. -/
theorem listGetD_map {α β : Type} (f : α → β) :
    ∀ (l : List α) (i : ℕ) (d : β) (d1 : α), i < l.length →
      (l.map f).getD i d = f (l.getD i d1)
  | [], i, d, d1, h => absurd h (by simp)
  | x :: xs, 0, d, d1, _ => rfl
  | x :: xs, i + 1, d, d1, h =>
    listGetD_map f xs i d d1 (Nat.lt_of_succ_lt_succ h)

/-- Helper: `getD` on `zipWith` at an in-range index. -/
theorem listGetD_zipWith {α β γ : Type} (f : α → β → γ) :
    ∀ (l1 : List α) (l2 : List β) (i : ℕ) (d : γ) (d1 : α) (d2 : β),
      i < l1.length → i < l2.length →
      (List.zipWith f l1 l2).getD i d = f (l1.getD i d1) (l2.getD i d2)
  | [], _, i, _, _, _, h1, _ => absurd h1 (by simp)
  | _ :: _, [], i, _, _, _, _, h2 => absurd h2 (by simp)
  | x :: xs, y :: ys, 0, d, d1, d2, _, _ => rfl
  | x :: xs, y :: ys, i + 1, d, d1, d2, h1, h2 =>
    listGetD_zipWith f xs ys i d d1 d2 (Nat.lt_of_succ_lt_succ h1)
      (Nat.lt_of_succ_lt_succ h2)

/-- Helper: the length of one datum list is the number of M electrodes,
given that the interpolation matrix has one row per point and that the M
and N lists have the same length. -/
theorem txDatum_length (env : Env) (survey_type : String) (src : SrcData)
    (hM : (env.interpMat src.locM).length = src.locM.length)
    (hN : (env.interpMat src.locN).length = src.locN.length)
    (hMN : src.locN.length = src.locM.length) :
    (txDatum env survey_type src).length = src.locM.length := by
  simp [txDatum, matVec, List.length_zipWith, hM, hN, hMN]

/-- Claim C5: the stacked observed-data vector (the concatenation of the
per-transmitter datum lists) has one entry per receiver dipole of each
source of the generated survey: its length is the sum over sources of the
number of M electrodes.  The interpolation matrices are assumed to have
one row per requested point, and each source's M and N lists to have the
same length, both shape contracts of the external library. -/
theorem stacked_data_length (env : Env) (survey_type : String)
    (sv : List SrcData)
    (hI : ∀ pts, (env.interpMat pts).length = pts.length)
    (hMN : ∀ s ∈ sv, s.locN.length = s.locM.length) :
    (forwardData env survey_type sv).flatten.length =
      (sv.map (fun s => s.locM.length)).sum := by
  induction sv with
  | nil => rfl
  | cons hd tl ih =>
    have hhd := hMN hd (List.mem_cons_self hd tl)
    have htl : ∀ s ∈ tl, s.locN.length = s.locM.length := fun s hs =>
      hMN s (List.mem_cons_of_mem hd hs)
    simp only [forwardData, List.map_cons, List.flatten_cons,
      List.length_append, List.sum_cons]
    rw [txDatum_length env survey_type hd (hI hd.locM) (hI hd.locN) hhd]
    rw [show List.map (txDatum env survey_type) tl =
      forwardData env survey_type tl from rfl]
    rw [ih htl]

/-- A concrete environment used by closed witnesses: two cells, identity
interpolation rows, identity solver. -/
def envW : Env :=
  ⟨fun _ => [0, 1], fun _ => 2, fun _ => [[1, 0], [0, 1]],
    fun pts => pts.map (fun _ => [1, 0]), id, [], [], 1, 0, 350⟩

/-- A concrete one-source survey used by closed witnesses. -/
def svW : List SrcData :=
  [⟨((0, 0, 0), (5, 0, 0)), [(1, 0, 0)], [(2, 0, 0)]⟩]

/-- Witness for C5 on the concrete environment and survey. -/
theorem stacked_data_length_witness :
    (forwardData envW "dipole-dipole" svW).flatten.length =
      (svW.map (fun s => s.locM.length)).sum :=
  stacked_data_length envW "dipole-dipole" svW
    (fun pts => by simp [envW])
    (by intro s hs; simp only [svW, List.mem_singleton] at hs; subst hs; rfl)

/-- Claim C6: the right-hand side is chosen by survey type: for
`pole-dipole`, charges `-1` over the closest-cell volumes at the
transmitter pole and at an infinity pole two line-lengths along the line
direction; for the other accepted survey types, a dipole with charges
`-1` and `+1` over the volumes of the two cells closest to the
transmitter electrode locations. -/
theorem computeRHS_by_survey_type (env : Env) (txLoc : Point × Point)
    (st : String) (i0 i1 j0 j1 : ℕ) :
    (env.closestPoints [txLoc.1,
        pAdd txLoc.1 (pScale (env.dl_len * 2) (env.dl_x, env.dl_y, 0))] =
          [i0, i1] →
      computeRHS env "pole-dipole" txLoc =
        matVec (env.interpMatT [txLoc.1,
          pAdd txLoc.1 (pScale (env.dl_len * 2) (env.dl_x, env.dl_y, 0))])
          [(-1) / env.vol i0, (-1) / env.vol i1]) ∧
    ((st = "dipole-dipole" ∨ st = "pole-pole") →
      env.closestPoints [txLoc.1, txLoc.2] = [j0, j1] →
      computeRHS env st txLoc =
        matVec (env.interpMatT [txLoc.1, txLoc.2])
          [(-1) / env.vol j0, 1 / env.vol j1]) := by
  constructor
  · intro hcp
    simp only [computeRHS, if_pos rfl, hcp]
    simp [npDiv]
  · intro hst hcp
    have hne : st ≠ "pole-dipole" := by
      rcases hst with h | h <;> subst h <;> decide
    simp only [computeRHS, if_neg hne, hcp]
    simp [npDiv]

/-- Witness for C6: the pole-dipole branch on the concrete environment. -/
theorem computeRHS_by_survey_type_witness :
    computeRHS envW "pole-dipole" ((0, 0, 0), (5, 0, 0)) =
      matVec (envW.interpMatT [((0, 0, 0) : Point),
        pAdd (0, 0, 0) (pScale (envW.dl_len * 2) (envW.dl_x, envW.dl_y, 0))])
        [(-1) / envW.vol 0, (-1) / envW.vol 1] :=
  (computeRHS_by_survey_type envW ((0, 0, 0), (5, 0, 0))
    "dipole-dipole" 0 1 0 1).1 rfl

/-- Claim C10: the datum stored for every transmitter is the receiver
potential difference scaled by `np.pi`: elementwise
`(P1*phi - P2*phi) * pi` where `phi` solves the system for that
transmitter's right-hand side. -/
theorem datum_pi_scaled (env : Env) (survey_type : String)
    (sv : List SrcData) (ii : ℕ) (h : ii < sv.length) :
    (forwardData env survey_type sv).getD ii [] =
      List.zipWith (fun a b => (a - b) * npPi)
        (matVec (env.interpMat (sv.getD ii srcDefault).locM)
          (env.solver
            (computeRHS env survey_type (sv.getD ii srcDefault).txLoc)))
        (matVec (env.interpMat (sv.getD ii srcDefault).locN)
          (env.solver
            (computeRHS env survey_type (sv.getD ii srcDefault).txLoc))) := by
  rw [forwardData, listGetD_map (txDatum env survey_type) sv ii [] srcDefault h]
  rfl

/-- Witness for C10 at transmitter 0 of the concrete survey. -/
theorem datum_pi_scaled_witness :
    (forwardData envW "dipole-dipole" svW).getD 0 [] =
      List.zipWith (fun a b => (a - b) * npPi)
        (matVec (envW.interpMat (svW.getD 0 srcDefault).locM)
          (envW.solver
            (computeRHS envW "dipole-dipole" (svW.getD 0 srcDefault).txLoc)))
        (matVec (envW.interpMat (svW.getD 0 srcDefault).locN)
          (envW.solver
            (computeRHS envW "dipole-dipole" (svW.getD 0 srcDefault).txLoc))) :=
  datum_pi_scaled envW "dipole-dipole" svW 0 (by simp [svW])

/-- The Jacobi preconditioner of the script: a diagonal matrix holding the
reciprocals of the main diagonal of the system matrix
(`dA = A.diagonal(); P = sp.spdiags(1/dA, 0, ...)`). -/
def jacobiPrecond {n : ℕ} (A : Matrix (Fin n) (Fin n) ℚ) :
    Matrix (Fin n) (Fin n) ℚ :=
  Matrix.diagonal (fun i => 1 / A i i)

/-- Claim C7: the preconditioner is diagonal of the same shape as `A`,
its diagonal entries are the reciprocals of `A`'s diagonal, and whenever a
diagonal entry of `A` is nonzero the corresponding diagonal entry of
`P * A` equals `1`. -/
theorem jacobi_preconditioner {n : ℕ} (A : Matrix (Fin n) (Fin n) ℚ) :
    (∀ i j, i ≠ j → jacobiPrecond A i j = 0) ∧
    (∀ i, jacobiPrecond A i i = 1 / A i i) ∧
    (∀ i, A i i ≠ 0 → (jacobiPrecond A * A) i i = 1) := by
  refine ⟨fun i j hij => Matrix.diagonal_apply_ne _ hij,
    fun i => Matrix.diagonal_apply_eq _ i, fun i hne => ?_⟩
  rw [Matrix.mul_apply]
  rw [Finset.sum_eq_single i]
  · rw [jacobiPrecond, Matrix.diagonal_apply_eq, one_div_mul_cancel hne]
  · intro b _ hb
    rw [jacobiPrecond, Matrix.diagonal_apply_ne _ (Ne.symm hb), zero_mul]
  · intro hi
    exact absurd (Finset.mem_univ i) hi

/-- A concrete system matrix for the C7 witness. -/
def matW : Matrix (Fin 2) (Fin 2) ℚ := !![2, 3; 5, 7]

/-- Witness for C7 on a concrete 2-by-2 matrix. -/
theorem jacobi_preconditioner_witness :
    jacobiPrecond matW 0 1 = 0 ∧
    jacobiPrecond matW 0 0 = 1 / matW 0 0 ∧
    (jacobiPrecond matW * matW) 0 0 = 1 :=
  ⟨(jacobi_preconditioner matW).1 0 1 (by decide),
    (jacobi_preconditioner matW).2.1 0,
    (jacobi_preconditioner matW).2.2 0 (by
      show (2 : ℚ) ≠ 0
      norm_num)⟩

/-- The assembled system matrix `A = Div * Msig * Grad` of the script. -/
def assembleA {c f : ℕ} (Div : Matrix (Fin c) (Fin f) ℚ)
    (Msig : Matrix (Fin f) (Fin f) ℚ) (Grad : Matrix (Fin f) (Fin c) ℚ) :
    Matrix (Fin c) (Fin c) ℚ :=
  Div * Msig * Grad

/-- The nullspace corner fix of the script: `A[0, 0] = 1`, leaving every
other entry unchanged. -/
def fixNullspace {c : ℕ} (A : Matrix (Fin (c + 1)) (Fin (c + 1)) ℚ) :
    Matrix (Fin (c + 1)) (Fin (c + 1)) ℚ :=
  Matrix.of fun i j => if i = 0 ∧ j = 0 then 1 else A i j

/-- Claim C9: after assembling `A = Div * Msig * Grad`, exactly the entry
at `(0, 0)` is overwritten with `1`; every other entry of the solved
matrix equals the corresponding entry of the assembled product. -/
theorem corner_fix_frame {c f : ℕ} (Div : Matrix (Fin (c + 1)) (Fin f) ℚ)
    (Msig : Matrix (Fin f) (Fin f) ℚ)
    (Grad : Matrix (Fin f) (Fin (c + 1)) ℚ) :
    fixNullspace (assembleA Div Msig Grad) 0 0 = 1 ∧
    ∀ i j, ¬(i = 0 ∧ j = 0) →
      fixNullspace (assembleA Div Msig Grad) i j =
        (Div * Msig * Grad) i j := by
  constructor
  · simp [fixNullspace]
  · intro i j hij
    simp only [fixNullspace, Matrix.of_apply, if_neg hij]
    rfl

/-- Concrete factors for the C9 witness. -/
def divW : Matrix (Fin 2) (Fin 1) ℚ := !![3; 4]

/-- Concrete face matrix for the C9 witness. -/
def msigW : Matrix (Fin 1) (Fin 1) ℚ := !![5]

/-- Concrete gradient for the C9 witness. -/
def gradW : Matrix (Fin 1) (Fin 2) ℚ := !![6, 7]

/-- Witness for C9 at the concrete factors and the off-corner entry
`(1, 0)`. -/
theorem corner_fix_frame_witness :
    fixNullspace (assembleA divW msigW gradW) 0 0 = 1 ∧
    fixNullspace (assembleA divW msigW gradW) 1 0 =
      (divW * msigW * gradW) 1 0 :=
  ⟨(corner_fix_frame divW msigW gradW).1,
    (corner_fix_frame divW msigW gradW).2 1 0 (by decide)⟩

/-- Helper: `getD` on `setSphere` at an in-range index picks the new value
inside the sphere and the old value outside. -/
theorem setSphere_getD (c : Point) (r v : ℚ) (cells : List Point)
    (vals : List ℚ) (i : ℕ) (p0 : Point) (h1 : i < cells.length)
    (h2 : i < vals.length) :
    (setSphere c r v cells vals).getD i 0 =
      if insideSphere c r (cells.getD i p0) then v else vals.getD i 0 := by
  rw [setSphere, listGetD_zipWith _ cells vals i 0 p0 0 h1 h2]

/-- Claim C8: in the model built by background assignment then the two
sequential sphere overwrites, a cell outside both spheres holds the
background `sig0`, and a cell inside both spheres holds `sig2` because the
second assignment happens last. -/
theorem model_two_spheres (sig0 sig1 sig2 : ℚ) (c1 c2 : Point) (r1 r2 : ℚ)
    (cells : List Point) (i : ℕ) (h : i < cells.length) :
    (insideSphere c1 r1 (cells.getD i (0, 0, 0)) = false →
      insideSphere c2 r2 (cells.getD i (0, 0, 0)) = false →
      (buildModel sig0 sig1 sig2 c1 c2 r1 r2 cells).getD i 0 = sig0) ∧
    (insideSphere c1 r1 (cells.getD i (0, 0, 0)) = true →
      insideSphere c2 r2 (cells.getD i (0, 0, 0)) = true →
      (buildModel sig0 sig1 sig2 c1 c2 r1 r2 cells).getD i 0 = sig2) := by
  have hlen0 : (cells.map (fun _ => sig0)).length = cells.length :=
    List.length_map _ _
  have hlen1 : (setSphere c1 r1 sig1 cells (cells.map (fun _ => sig0))).length
      = cells.length := by
    rw [setSphere, List.length_zipWith, hlen0, min_self]
  have hmodel : (buildModel sig0 sig1 sig2 c1 c2 r1 r2 cells).getD i 0 =
      if insideSphere c2 r2 (cells.getD i (0, 0, 0)) then sig2
      else if insideSphere c1 r1 (cells.getD i (0, 0, 0)) then sig1
      else sig0 := by
    rw [buildModel]
    rw [setSphere_getD c2 r2 sig2 cells _ i (0, 0, 0) h (hlen1 ▸ h)]
    rw [setSphere_getD c1 r1 sig1 cells _ i (0, 0, 0) h (hlen0 ▸ h)]
    rw [listGetD_map (fun _ => sig0) cells i 0 (0, 0, 0) h]
  constructor
  · intro h1 h2
    rw [hmodel, h1, h2]
    simp
  · intro h1 h2
    rw [hmodel, h2]
    simp

/-- Concrete cells for the C8 witness: the first lies in both spheres, the
second in neither. -/
def cellsW : List Point := [(0, 0, 0), (100, 0, 0)]

/-- Witness for C8: with two unit spheres at the origin, the origin cell
gets the second sphere value and the far cell keeps the background. -/
theorem model_two_spheres_witness :
    (buildModel 10 20 30 (0, 0, 0) (0, 0, 0) 1 1 cellsW).getD 0 0 = 30 ∧
    (buildModel 10 20 30 (0, 0, 0) (0, 0, 0) 1 1 cellsW).getD 1 0 = 10 :=
  ⟨(model_two_spheres 10 20 30 (0, 0, 0) (0, 0, 0) 1 1 cellsW 0
      (by simp [cellsW])).2 (by norm_num [insideSphere, cellsW])
      (by norm_num [insideSphere, cellsW]),
    (model_two_spheres 10 20 30 (0, 0, 0) (0, 0, 0) 1 1 cellsW 1
      (by simp [cellsW])).1 (by norm_num [insideSphere, cellsW])
      (by norm_num [insideSphere, cellsW])⟩
